import Mathlib

/-!
Verification of the Orbital Escape gravitational flight simulator.

The source is a single-component browser game (src/App.tsx).  The embedding
below models the simulation core with real numbers standing in for the
source's IEEE doubles: the gravity accumulation loop shared by the live
integrator and the trajectory predictor, the per-tick physics update of the
`animate` callback, the trajectory predictor `predictTrajectory`, and the
game/UI state machine (`initLevel`, the level-reactivity effect, the pointer
handlers and the menu actions).  Rendering-only code (meshes, materials,
lines, camera, the visual rotation of the craft) is omitted; every field and
branch that feeds back into simulation or game state is kept.

Solid.js note: `createEffect` callbacks run once after the synchronous signal
updates of an event handler complete, reading the final signal values.  The
level-reactivity effect (tracking `currentLevel`, `retryCounter`, `showMenu`,
`showLevelSelect`) is therefore modelled as `effectRun`, applied once at the
end of each action that writes one of its tracked signals; `retryLevel` only
bumps the tracked `retryCounter`, so it is exactly one `effectRun`.
-/

noncomputable section

namespace OrbitalEscape

/-- Planar vector; the source uses `THREE.Vector3` with `z = 0` throughout. -/
abbrev Vec2 := ℝ × ℝ

/-- `THREE.Vector3.length` restricted to the plane. -/
def vlen (v : Vec2) : ℝ := Real.sqrt (v.1 ^ 2 + v.2 ^ 2)

/-- `a.distanceTo(b)` of three.js: Euclidean distance between two points. -/
def vdist (a b : Vec2) : ℝ := vlen (b - a)

/-- `THREE.Vector3.normalize`: divides by the length, or by 1 when the
length is 0 (three.js implements `divideScalar(this.length() || 1)`). -/
def normalize3 (v : Vec2) : Vec2 := (if vlen v = 0 then 1 else vlen v)⁻¹ • v

/-- Gravitational constant `G` (src/App.tsx line 6). -/
def G : ℝ := 8

/-- `LAUNCH_POWER_MULTIPLIER` (line 7). -/
def LAUNCH_POWER_MULTIPLIER : ℝ := 0.5

/-- `GRAVITY_SOFTENING` (line 8). -/
def GRAVITY_SOFTENING : ℝ := 10

/-- `MAX_TRAIL_LENGTH` (line 9). -/
def MAX_TRAIL_LENGTH : ℕ := 100

/-- `GOAL_RADIUS` (line 10). -/
def GOAL_RADIUS : ℝ := 2.5

/-- A gravitating body: the simulation-relevant fields of the `Planet`
interface / level data (position, mass, radius; color is render-only). -/
structure Body where
  pos : Vec2
  mass : ℝ
  radius : ℝ

/-- The simulation-relevant fields of a `Level` record (name, description,
hint and colors are display-only). -/
structure Level where
  spacecraft : Vec2
  goal : Vec2
  planets : List Body

/-- The `LEVELS` catalog (lines 30-106), colors and text dropped. -/
def LEVELS : List Level :=
  [ { spacecraft := (-20, 0), goal := (20, 0), planets := [] },
    { spacecraft := (-25, 0), goal := (25, 0),
      planets := [⟨(0, -12), 400, 2.5⟩] },
    { spacecraft := (-25, -10), goal := (25, 10),
      planets := [⟨(0, -5), 600, 3⟩] },
    { spacecraft := (-30, 0), goal := (30, 0),
      planets := [⟨(0, 15), 400, 2⟩, ⟨(0, -15), 400, 2⟩] },
    { spacecraft := (-30, -15), goal := (30, 15),
      planets := [⟨(-10, 10), 350, 2⟩, ⟨(10, -5), 400, 2⟩] },
    { spacecraft := (-35, 0), goal := (35, 0),
      planets := [⟨(-15, 8), 300, 1.5⟩, ⟨(-15, -8), 300, 1.5⟩,
                  ⟨(0, 12), 350, 1.8⟩, ⟨(0, -12), 350, 1.8⟩,
                  ⟨(15, 6), 300, 1.5⟩, ⟨(15, -6), 300, 1.5⟩] },
    { spacecraft := (-30, 20), goal := (30, 20),
      planets := [⟨(0, 0), 1500, 4⟩] } ]

/-- Fallback for the (never exercised) out-of-range catalog access. -/
def emptyLevel : Level := { spacecraft := (0, 0), goal := (0, 0), planets := [] }

/-- The `gameState` signal values (line 112). -/
inductive Phase
  | aiming
  | flying
  | success
  | failed
deriving DecidableEq

/-- The signal / mutable-closure state of the `App` component that feeds the
simulation: the signals of lines 111-121 plus the mutable `spacecraft`
position, `spacecraftVelocity` and `trailPositions` closures.  `retryCounter`
is omitted: it carries no information, it only retriggers the level effect. -/
structure AppState where
  currentLevel : ℕ
  gameState : Phase
  attempts : ℕ
  showMenu : Bool
  showLevelSelect : Bool
  isDragging : Bool
  launchPower : ℝ
  launchAngle : ℝ
  completedLevels : Finset ℕ
  craftPos : Vec2
  craftVel : Vec2
  trail : List Vec2

/-- The level whose objects are currently instantiated (`LEVELS[levelIndex]`). -/
def levelOf (s : AppState) : Level := LEVELS.getD s.currentLevel emptyLevel

/-- The shared gravity accumulation loop (lines 374-388 of
`predictTrajectory` and lines 612-627 of `animate`): walks the bodies in
list order, returns `none` as soon as one body is within `radius + margin`
of the query point (`margin = 0` in the predictor, `0.5` in the live
integrator), otherwise accumulates
`G * mass / ((r + GRAVITY_SOFTENING) * (r + GRAVITY_SOFTENING))` along the
normalized displacement toward the body. -/
def accumAccel (pos : Vec2) (margin : ℝ) : List Body → Vec2 → Option Vec2
  | [], acc => some acc
  | b :: rest, acc =>
    let d := b.pos - pos
    let r := vlen d
    if r < b.radius + margin then none
    else
      accumAccel pos margin rest
        (acc + (G * b.mass / ((r + GRAVITY_SOFTENING) * (r + GRAVITY_SOFTENING))) • normalize3 d)

/-- Trail update of one flying tick (lines 642-645): push the new position,
then drop the oldest if the length exceeds `MAX_TRAIL_LENGTH`. -/
def pushTrail (t : List Vec2) (p : Vec2) : List Vec2 :=
  let t2 := t ++ [p]
  if MAX_TRAIL_LENGTH < t2.length then t2.tail else t2

/-- Velocity after one live tick: `spacecraftVelocity.add(acceleration.multiplyScalar(dt))`
with `dt = 0.016` (lines 606, 633). -/
def postVel (s : AppState) (a : Vec2) : Vec2 := s.craftVel + (0.016 : ℝ) • a

/-- Position after one live tick: `spacecraft.position.add(velocity * dt)`
using the already updated velocity (line 634). -/
def postPos (s : AppState) (a : Vec2) : Vec2 := s.craftPos + (0.016 : ℝ) • postVel s a

/-- The physics part of one `animate` frame (lines 604-673): runs only while
`gameState` is `flying`; gravity pass with collision margin 0.5, then on
crash only the phase changes; otherwise integrate, record the trail, then
the goal check (`< GOAL_RADIUS * 1.2`, records the level as completed) and
then the bounds check (`|x| > 55 or |y| > 45`), as sequential `if`s. -/
def flyTick (s : AppState) : AppState :=
  if s.gameState = Phase.flying then
    match accumAccel s.craftPos 0.5 (levelOf s).planets 0 with
    | none => { s with gameState := Phase.failed }
    | some a =>
      let pos := postPos s a
      let s1 := { s with craftVel := postVel s a, craftPos := pos,
                         trail := pushTrail s.trail pos }
      let s2 :=
        if vdist pos (levelOf s).goal < GOAL_RADIUS * 1.2 then
          { s1 with gameState := Phase.success,
                    completedLevels := insert s.currentLevel s1.completedLevels }
        else s1
      if 55 < |pos.1| ∨ 45 < |pos.2| then { s2 with gameState := Phase.failed }
      else s2
  else s

/-- `predictTrajectory` (lines 363-404): up to `steps` iterations with
`dt = 0.016 * 3`; gravity pass with margin 0, stopping on collision; stop
before integrating when within `GOAL_RADIUS * 1.5` of the goal; otherwise
integrate, append the new position, and stop after appending when
`|x| > 60 or |y| > 50`. -/
def predictTrajectory (planets : List Body) (goal : Vec2) : Vec2 → Vec2 → ℕ → List Vec2
  | _, _, 0 => []
  | pos, vel, n + 1 =>
    match accumAccel pos 0 planets 0 with
    | none => []
    | some a =>
      if vdist pos goal < GOAL_RADIUS * 1.5 then []
      else
        let vel2 := vel + (0.016 * 3 : ℝ) • a
        let pos2 := pos + (0.016 * 3 : ℝ) • vel2
        pos2 ::
          (if 60 < |pos2.1| ∨ 50 < |pos2.2| then []
           else predictTrajectory planets goal pos2 vel2 n)

/-- `updateTrajectoryLine` (lines 406-426) invokes the predictor with
`steps = 100`; only the returned polyline feeds the claims. -/
def updateTrajectoryLinePoints (planets : List Body) (goal pos vel : Vec2) : List Vec2 :=
  predictTrajectory planets goal pos vel 100

/-- JavaScript `Math.atan2` on real inputs (signed zero does not arise). -/
def atan2 (y x : ℝ) : ℝ :=
  if 0 < x then Real.arctan (y / x)
  else if x < 0 then
    (if 0 ≤ y then Real.arctan (y / x) + Real.pi else Real.arctan (y / x) - Real.pi)
  else if 0 < y then Real.pi / 2
  else if y < 0 then -(Real.pi / 2)
  else 0

/-- `initLevel` (lines 429-474): rebuilds the scene for `LEVELS[idx]`
(craft at the level start), clears the trail, zeroes the velocity, resets
the phase to aiming and increments the attempts counter.  It does not touch
`isDragging`, `launchPower` or `launchAngle`. -/
def initLevel (s : AppState) (idx : ℕ) : AppState :=
  let lv := LEVELS.getD idx emptyLevel
  { s with craftPos := lv.spacecraft, craftVel := (0, 0), trail := [],
           gameState := Phase.aiming, attempts := s.attempts + 1 }

/-- One run of the level-reactivity effect (lines 689-695): reinitialize the
current level unless a menu overlay is shown. -/
def effectRun (s : AppState) : AppState :=
  if s.showMenu || s.showLevelSelect then s else initLevel s s.currentLevel

/-- `retryLevel` (lines 723-725): bumps the tracked retry counter, whose only
observable consequence is one rerun of the level effect. -/
def retryLevel (s : AppState) : AppState := effectRun s

/-- `startGame` (lines 707-711) followed by the effect rerun it triggers. -/
def startGame (s : AppState) : AppState :=
  effectRun { s with showMenu := false, currentLevel := 0, attempts := 0 }

/-- `selectLevel` (lines 732-736) followed by the effect rerun it triggers. -/
def selectLevel (s : AppState) (i : ℕ) : AppState :=
  effectRun { s with showLevelSelect := false, currentLevel := i, attempts := 0 }

/-- `nextLevel` (lines 713-721) followed by the effect rerun it triggers. -/
def nextLevel (s : AppState) : AppState :=
  if s.currentLevel < LEVELS.length - 1 then
    effectRun { s with currentLevel := s.currentLevel + 1 }
  else
    effectRun { s with gameState := Phase.aiming, showMenu := true }

/-- The Menu buttons (`setShowMenu(true)`); the effect rerun is a no-op
because of its menu guard. -/
def goToMenu (s : AppState) : AppState := effectRun { s with showMenu := true }

/-- `openLevelSelect` (lines 727-730). -/
def openLevelSelect (s : AppState) : AppState :=
  effectRun { s with showLevelSelect := true, showMenu := false }

/-- `onMouseDown` (lines 489-498): begin a drag while aiming in-level. -/
def onMouseDown (s : AppState) : AppState :=
  if s.showMenu = true ∨ s.showLevelSelect = true ∨ s.gameState ≠ Phase.aiming then s
  else { s with isDragging := true }

/-- `onMouseMove` (lines 500-534): while dragging in `aiming`, record the
pull power `min(|craft - pointer|, 30)` and the angle `atan2(dy, dx)`
measured from the pointer to the craft. -/
def onMouseMove (s : AppState) (w : Vec2) : AppState :=
  if s.isDragging ≠ true ∨ s.gameState ≠ Phase.aiming then s
  else
    { s with launchPower := min (vlen (s.craftPos - w)) 30,
             launchAngle := atan2 (s.craftPos.2 - w.2) (s.craftPos.1 - w.1) }

/-- `onMouseUp` (lines 536-560): end the drag; if the recorded power exceeds
2, set the craft velocity from the aim and switch to `flying`; either way
zero the power signal afterwards. -/
def onMouseUp (s : AppState) : AppState :=
  if s.isDragging ≠ true ∨ s.gameState ≠ Phase.aiming then s
  else
    let s1 := { s with isDragging := false }
    let s2 :=
      if 2 < s.launchPower then
        { s1 with
            craftVel := (Real.cos s.launchAngle * s.launchPower * LAUNCH_POWER_MULTIPLIER,
                         Real.sin s.launchAngle * s.launchPower * LAUNCH_POWER_MULTIPLIER),
            gameState := Phase.flying }
      else s1
    { s2 with launchPower := 0 }

/-- Every operation the component exposes to the browser: pointer events,
animation ticks and the menu actions. -/
inductive Op
  | down
  | up
  | move (w : Vec2)
  | tick
  | retry
  | selectLv (i : ℕ)
  | start
  | next
  | menu
  | levelSelect

/-- Dispatch of one operation. -/
def step : Op → AppState → AppState
  | .down, s => onMouseDown s
  | .up, s => onMouseUp s
  | .move w, s => onMouseMove s w
  | .tick, s => flyTick s
  | .retry, s => retryLevel s
  | .selectLv i, s => selectLevel s i
  | .start, s => startGame s
  | .next, s => nextLevel s
  | .menu, s => goToMenu s
  | .levelSelect, s => openLevelSelect s

/-- Initial component state: main menu shown, nothing completed. -/
def menuStart : AppState :=
  { currentLevel := 0, gameState := Phase.aiming, attempts := 0,
    showMenu := true, showLevelSelect := false, isDragging := false,
    launchPower := 0, launchAngle := 0, completedLevels := ∅,
    craftPos := (0, 0), craftVel := (0, 0), trail := [] }

/-- In level 1 ("First Launch"), aiming, menus hidden. -/
def demoAim : AppState :=
  { menuStart with showMenu := false, attempts := 1, craftPos := (-20, 0) }

/-- Flying inside the planet of level 2 ("Gentle Curve"). -/
def sampleCrash : AppState :=
  { demoAim with currentLevel := 1, gameState := Phase.flying,
                 craftPos := (0, -12), craftVel := (1, 0) }

/-- Flying just short of the goal of level 1. -/
def sampleNearGoal : AppState :=
  { demoAim with gameState := Phase.flying, craftPos := (19, 0), craftVel := (0, 0) }

/-- Mid-drag while aiming, pull power 3 at angle 0. -/
def sampleLaunch : AppState :=
  { demoAim with isDragging := true, launchPower := 3, launchAngle := 0 }

/-- Mid-drag while aiming, pull power 1.5 (below the launch threshold). -/
def sampleCancel : AppState :=
  { demoAim with isDragging := true, launchPower := 1.5, launchAngle := 0 }

/-- `demoAim` right after pointer-down. -/
def demoDown : AppState := { demoAim with isDragging := true }

/-- `demoDown` after the pointer moved to `(-30, 0)`: pull power 10, angle 0. -/
def demoDragged : AppState :=
  { demoAim with isDragging := true, launchPower := 10, launchAngle := 0 }

/-- `demoDragged` after a mid-drag retry: run rebuilt, drag state kept. -/
def demoDraggedRetried : AppState :=
  { demoAim with isDragging := true, launchPower := 10, launchAngle := 0, attempts := 2 }

/-- `demoDraggedRetried` after the release: launched with the pre-reset aim. -/
def demoStaleLaunch : AppState :=
  { demoAim with isDragging := false, launchPower := 0, launchAngle := 0, attempts := 2,
                 craftVel := ((5 : ℝ), (0 : ℝ)), gameState := Phase.flying }

/-! ### Helper lemmas -/

theorem vlen_axis_x (x : ℝ) : vlen (x, 0) = |x| := by
  have h : ((x, (0 : ℝ)) : Vec2).1 ^ 2 + ((x, (0 : ℝ)) : Vec2).2 ^ 2 = x ^ 2 := by norm_num
  rw [vlen, h, Real.sqrt_sq_eq_abs]

theorem vdist_axis_x (a b y : ℝ) : vdist (a, y) (b, y) = |b - a| := by
  have h : ((b, y) : Vec2) - (a, y) = (b - a, 0) := by
    simp [Prod.mk_sub_mk]
  rw [vdist, h, vlen_axis_x]

/-- The gravity pass signals a crash exactly when some body of the list is
within `radius + margin` of the query point. -/
theorem accumAccel_eq_none_iff (pos : Vec2) (margin : ℝ) (bodies : List Body) :
    ∀ acc : Vec2,
      (accumAccel pos margin bodies acc = none ↔
        ∃ b ∈ bodies, vlen (b.pos - pos) < b.radius + margin) := by
  induction bodies with
  | nil => intro acc; simp [accumAccel]
  | cons b rest ih =>
    intro acc
    by_cases h : vlen (b.pos - pos) < b.radius + margin
    · simp only [accumAccel, if_pos h]
      exact iff_of_true trivial ⟨b, List.mem_cons_self b rest, h⟩
    · simp only [accumAccel, if_neg h]
      rw [ih]
      constructor
      · rintro ⟨c, hc, hlt⟩
        exact ⟨c, List.mem_cons_of_mem _ hc, hlt⟩
      · rintro ⟨c, hc, hlt⟩
        rcases List.mem_cons.mp hc with rfl | hc
        · exact absurd hlt h
        · exact ⟨c, hc, hlt⟩

/-- When no body is inside its collision threshold and every distance is
positive, the gravity pass returns the list-order sum of the per-body
contributions `8 * mass / (r + 10)^2` along the unit vector to the body. -/
theorem accumAccel_eq_sum (pos : Vec2) (margin : ℝ) (bodies : List Body) :
    ∀ acc : Vec2,
      (∀ b ∈ bodies, b.radius + margin ≤ vlen (b.pos - pos)) →
      (∀ b ∈ bodies, 0 < vlen (b.pos - pos)) →
      accumAccel pos margin bodies acc =
        some (acc + (bodies.map (fun b =>
          (8 * b.mass / (vlen (b.pos - pos) + 10) ^ 2) •
            ((vlen (b.pos - pos))⁻¹ • (b.pos - pos)))).sum) := by
  induction bodies with
  | nil => intro acc _ _; simp [accumAccel]
  | cons b rest ih =>
    intro acc hfar hpos
    have h1 : ¬ vlen (b.pos - pos) < b.radius + margin :=
      not_lt.2 (hfar b (List.mem_cons_self b rest))
    have h2 : vlen (b.pos - pos) ≠ 0 :=
      ne_of_gt (hpos b (List.mem_cons_self b rest))
    have hc : (G * b.mass /
          ((vlen (b.pos - pos) + GRAVITY_SOFTENING) *
            (vlen (b.pos - pos) + GRAVITY_SOFTENING))) • normalize3 (b.pos - pos)
        = (8 * b.mass / (vlen (b.pos - pos) + 10) ^ 2) •
            ((vlen (b.pos - pos))⁻¹ • (b.pos - pos)) := by
      rw [normalize3, if_neg h2]
      rw [smul_smul, smul_smul]
      congr 1
      rw [G, GRAVITY_SOFTENING]
      ring
    simp only [accumAccel, if_neg h1]
    rw [ih _ (fun c hcm => hfar c (List.mem_cons_of_mem _ hcm))
          (fun c hcm => hpos c (List.mem_cons_of_mem _ hcm))]
    rw [List.map_cons, List.sum_cons, ← add_assoc, ← hc]

/-- Claim C1: the net acceleration computed by the shared gravity pass (used
with margin 0.5 by the flight integrator and margin 0 by the trajectory
predictor) equals the sum, in the bodies' list order, of the contributions
`G * mass / (r + SOFTENING)^2` with `G = 8`, `SOFTENING = 10`, directed along
the unit vector from the query point toward each body; the softening enters
as `(r + 10)` squared. -/
theorem claim1_gravity_sum (pos : Vec2) (margin : ℝ) (bodies : List Body)
    (hfar : ∀ b ∈ bodies, b.radius + margin ≤ vdist pos b.pos)
    (hpos : ∀ b ∈ bodies, 0 < vdist pos b.pos) :
    accumAccel pos margin bodies 0 =
      some ((bodies.map (fun b =>
        (8 * b.mass / (vdist pos b.pos + 10) ^ 2) •
          ((vdist pos b.pos)⁻¹ • (b.pos - pos)))).sum) := by
  have h := accumAccel_eq_sum pos margin bodies 0
    (by simpa [vdist] using hfar) (by simpa [vdist] using hpos)
  simpa [vdist] using h

/-- Witness for C1: one body of mass 2 and radius 1 at distance 3 from the
query point, integrator margin 0.5. -/
theorem claim1_witness :
    (∀ b ∈ [Body.mk (3, 0) 2 1], b.radius + 0.5 ≤ vdist (0, 0) b.pos) ∧
    accumAccel ((0 : ℝ), (0 : ℝ)) 0.5 [Body.mk (3, 0) 2 1] 0 =
      some (((16 : ℝ) / 169) • (((3 : ℝ))⁻¹ • (((3 : ℝ), (0 : ℝ)) : Vec2))) := by
  have hd : vdist ((0, 0) : Vec2) ((3, 0) : Vec2) = 3 := by
    have h := vdist_axis_x 0 3 0
    simpa using h
  have hfar : ∀ b ∈ [Body.mk (3, 0) 2 1], b.radius + 0.5 ≤ vdist (0, 0) b.pos := by
    intro b hb
    rcases List.mem_singleton.mp hb with rfl
    rw [hd]; norm_num
  have hpos : ∀ b ∈ [Body.mk (3, 0) 2 1], 0 < vdist ((0 : ℝ), (0 : ℝ)) b.pos := by
    intro b hb
    rcases List.mem_singleton.mp hb with rfl
    rw [hd]; norm_num
  refine ⟨hfar, ?_⟩
  have happ := claim1_gravity_sum (0, 0) 0.5 [Body.mk (3, 0) 2 1] hfar hpos
  rw [happ]
  simp only [List.map_cons, List.map_nil, List.sum_cons, List.sum_nil, add_zero, hd]
  norm_num

theorem vdist_self (a : Vec2) : vdist a a = 0 := by
  rw [vdist, sub_self, vlen]
  norm_num

theorem flyTick_not_flying (s : AppState) (h : s.gameState ≠ Phase.flying) :
    flyTick s = s := by
  rw [flyTick, if_neg h]

theorem flyTick_crash (s : AppState) (h : s.gameState = Phase.flying)
    (hc : accumAccel s.craftPos 0.5 (levelOf s).planets 0 = none) :
    flyTick s = { s with gameState := Phase.failed } := by
  rw [flyTick, if_pos h, hc]

/-- A flying tick without collision, whose post-update position satisfies the
goal check but not the bounds check, integrates, records the trail and ends
in `success` with the level recorded as completed. -/
theorem flyTick_success (s : AppState) (a : Vec2) (h : s.gameState = Phase.flying)
    (ha : accumAccel s.craftPos 0.5 (levelOf s).planets 0 = some a)
    (hgoal : vdist (postPos s a) (levelOf s).goal < GOAL_RADIUS * 1.2)
    (hb : ¬ (55 < |(postPos s a).1| ∨ 45 < |(postPos s a).2|)) :
    flyTick s =
      { s with craftPos := postPos s a, craftVel := postVel s a,
               trail := pushTrail s.trail (postPos s a),
               gameState := Phase.success,
               completedLevels := insert s.currentLevel s.completedLevels } := by
  rw [flyTick, if_pos h, ha]
  simp only [if_pos hgoal, if_neg hb]

/-- A flying tick without collision, whose post-update position fails the
goal check and passes the bounds check, integrates, records the trail and
ends in `failed` with `completedLevels` untouched. -/
theorem flyTick_bounds_failed (s : AppState) (a : Vec2) (h : s.gameState = Phase.flying)
    (ha : accumAccel s.craftPos 0.5 (levelOf s).planets 0 = some a)
    (hgoal : ¬ vdist (postPos s a) (levelOf s).goal < GOAL_RADIUS * 1.2)
    (hb : 55 < |(postPos s a).1| ∨ 45 < |(postPos s a).2|) :
    flyTick s =
      { s with craftPos := postPos s a, craftVel := postVel s a,
               trail := pushTrail s.trail (postPos s a),
               gameState := Phase.failed } := by
  rw [flyTick, if_pos h, ha]
  simp only [if_neg hgoal, if_pos hb]

/-- A flying tick without collision that triggers neither the goal check nor
the bounds check only integrates and records the trail. -/
theorem flyTick_quiet (s : AppState) (a : Vec2) (h : s.gameState = Phase.flying)
    (ha : accumAccel s.craftPos 0.5 (levelOf s).planets 0 = some a)
    (hgoal : ¬ vdist (postPos s a) (levelOf s).goal < GOAL_RADIUS * 1.2)
    (hb : ¬ (55 < |(postPos s a).1| ∨ 45 < |(postPos s a).2|)) :
    flyTick s =
      { s with craftPos := postPos s a, craftVel := postVel s a,
               trail := pushTrail s.trail (postPos s a) } := by
  rw [flyTick, if_pos h, ha]
  simp only [if_neg hgoal, if_neg hb]

/-- Claim C2: on a flying tick whose pre-tick craft position is strictly
within `radius + 0.5` of some body, the tick only switches the phase to
`Failed`: position, velocity and trail are untouched. -/
theorem claim2_collision_freezes (s : AppState)
    (hfly : s.gameState = Phase.flying)
    (hhit : ∃ b ∈ (levelOf s).planets, vdist s.craftPos b.pos < b.radius + 0.5) :
    flyTick s = { s with gameState := Phase.failed } := by
  have hc : accumAccel s.craftPos 0.5 (levelOf s).planets 0 = none :=
    (accumAccel_eq_none_iff _ _ _ 0).mpr (by simpa [vdist] using hhit)
  exact flyTick_crash s hfly hc

/-- Witness for C2: flying at the center of the planet of level 2. -/
theorem claim2_witness :
    sampleCrash.gameState = Phase.flying ∧
    (∃ b ∈ (levelOf sampleCrash).planets,
      vdist sampleCrash.craftPos b.pos < b.radius + 0.5) ∧
    flyTick sampleCrash = { sampleCrash with gameState := Phase.failed } := by
  have hp : (levelOf sampleCrash).planets = [Body.mk (0, -12) 400 2.5] := rfl
  have hd : vdist sampleCrash.craftPos ((0 : ℝ), (-12 : ℝ)) < 2.5 + 0.5 := by
    have h0 : sampleCrash.craftPos = ((0 : ℝ), (-12 : ℝ)) := rfl
    rw [h0, vdist_self]
    norm_num
  have hhit : ∃ b ∈ (levelOf sampleCrash).planets,
      vdist sampleCrash.craftPos b.pos < b.radius + 0.5 := by
    refine ⟨Body.mk (0, -12) 400 2.5, ?_, ?_⟩
    · rw [hp]; exact List.mem_singleton.mpr rfl
    · exact hd
  exact ⟨rfl, hhit, claim2_collision_freezes sampleCrash rfl hhit⟩

theorem abs_fst_sub_le_vdist (p q : Vec2) : |q.1 - p.1| ≤ vdist p q := by
  calc |q.1 - p.1| = Real.sqrt ((q.1 - p.1) ^ 2) := (Real.sqrt_sq_eq_abs _).symm
    _ ≤ Real.sqrt ((q - p).1 ^ 2 + (q - p).2 ^ 2) := by
        apply Real.sqrt_le_sqrt
        have h : (q - p).1 = q.1 - p.1 := rfl
        rw [h]
        exact le_add_of_nonneg_right (sq_nonneg _)
    _ = vdist p q := rfl

theorem abs_snd_sub_le_vdist (p q : Vec2) : |q.2 - p.2| ≤ vdist p q := by
  calc |q.2 - p.2| = Real.sqrt ((q.2 - p.2) ^ 2) := (Real.sqrt_sq_eq_abs _).symm
    _ ≤ Real.sqrt ((q - p).1 ^ 2 + (q - p).2 ^ 2) := by
        apply Real.sqrt_le_sqrt
        have h : (q - p).2 = q.2 - p.2 := rfl
        rw [h]
        exact le_add_of_nonneg_left (sq_nonneg _)
    _ = vdist p q := rfl

/-- Every goal of the catalog sits well inside the live play area. -/
theorem goal_bounds : ∀ lv ∈ LEVELS, |lv.goal.1| ≤ 35 ∧ |lv.goal.2| ≤ 20 := by
  intro lv h
  fin_cases h <;>
    exact ⟨abs_le.mpr ⟨by norm_num, by norm_num⟩, abs_le.mpr ⟨by norm_num, by norm_num⟩⟩

/-- Any point of a catalog level passing the goal check is strictly inside
the live bounds, so the goal and bounds checks can never fire on the same
tick. -/
theorem near_goal_in_bounds (s : AppState) (hlt : s.currentLevel < LEVELS.length)
    (p : Vec2) (hg : vdist p (levelOf s).goal < GOAL_RADIUS * 1.2) :
    ¬ (55 < |p.1| ∨ 45 < |p.2|) := by
  have hmem : levelOf s ∈ LEVELS := by
    rw [levelOf, List.getD_eq_getElem LEVELS emptyLevel hlt]
    exact List.getElem_mem hlt
  obtain ⟨hx, hy⟩ := goal_bounds _ hmem
  have h1 := abs_fst_sub_le_vdist p (levelOf s).goal
  have h2 := abs_snd_sub_le_vdist p (levelOf s).goal
  have hgr : GOAL_RADIUS * 1.2 = 3 := by rw [GOAL_RADIUS]; norm_num
  have hx2 : |p.1| ≤ |(levelOf s).goal.1| + |(levelOf s).goal.1 - p.1| := by
    have e : p.1 = (levelOf s).goal.1 - ((levelOf s).goal.1 - p.1) := by ring
    calc |p.1| = |(levelOf s).goal.1 - ((levelOf s).goal.1 - p.1)| := by rw [← e]
      _ ≤ |(levelOf s).goal.1| + |(levelOf s).goal.1 - p.1| := abs_sub _ _
  have hy2 : |p.2| ≤ |(levelOf s).goal.2| + |(levelOf s).goal.2 - p.2| := by
    have e : p.2 = (levelOf s).goal.2 - ((levelOf s).goal.2 - p.2) := by ring
    calc |p.2| = |(levelOf s).goal.2 - ((levelOf s).goal.2 - p.2)| := by rw [← e]
      _ ≤ |(levelOf s).goal.2| + |(levelOf s).goal.2 - p.2| := abs_sub _ _
  push_neg
  constructor
  · linarith
  · linarith

/-- Claim C4: the collision, goal and bounds checks fire in that priority
order on every flying tick, at most one phase transition happens per tick
(for catalog levels a success can never also trigger the bounds check), and
once the phase has left `flying` a tick is a no-op. -/
theorem claim4_priority_single_transition (s : AppState) (a : Vec2) :
    (s.gameState ≠ Phase.flying → flyTick s = s) ∧
    (s.gameState = Phase.flying →
      (∃ b ∈ (levelOf s).planets, vdist s.craftPos b.pos < b.radius + 0.5) →
      flyTick s = { s with gameState := Phase.failed }) ∧
    (s.gameState = Phase.flying → s.currentLevel < LEVELS.length →
      accumAccel s.craftPos 0.5 (levelOf s).planets 0 = some a →
      vdist (postPos s a) (levelOf s).goal < GOAL_RADIUS * 1.2 →
      flyTick s =
        { s with craftPos := postPos s a, craftVel := postVel s a,
                 trail := pushTrail s.trail (postPos s a),
                 gameState := Phase.success,
                 completedLevels := insert s.currentLevel s.completedLevels }) := by
  refine ⟨flyTick_not_flying s, ?_, ?_⟩
  · intro hfly hhit
    have hc : accumAccel s.craftPos 0.5 (levelOf s).planets 0 = none :=
      (accumAccel_eq_none_iff _ _ _ 0).mpr (by simpa [vdist] using hhit)
    exact flyTick_crash s hfly hc
  · intro hfly hlt ha hgoal
    exact flyTick_success s a hfly ha hgoal (near_goal_in_bounds s hlt _ hgoal)

/-- Witness for C4: a no-op tick on an aiming state, a crash tick, and a
goal-reaching tick in level 1. -/
theorem claim4_witness :
    flyTick demoAim = demoAim ∧
    flyTick sampleCrash = { sampleCrash with gameState := Phase.failed } ∧
    flyTick sampleNearGoal =
      { sampleNearGoal with
          craftPos := postPos sampleNearGoal 0, craftVel := postVel sampleNearGoal 0,
          trail := pushTrail sampleNearGoal.trail (postPos sampleNearGoal 0),
          gameState := Phase.success,
          completedLevels := insert sampleNearGoal.currentLevel sampleNearGoal.completedLevels } := by
  have hpost : postPos sampleNearGoal 0 = ((19 : ℝ), (0 : ℝ)) := by
    rw [postPos, postVel]
    have h1 : sampleNearGoal.craftVel = ((0 : ℝ), (0 : ℝ)) := rfl
    have h2 : sampleNearGoal.craftPos = ((19 : ℝ), (0 : ℝ)) := rfl
    rw [h1, h2]
    simp [Prod.smul_mk]
  have hgoal : vdist (postPos sampleNearGoal 0) (levelOf sampleNearGoal).goal <
      GOAL_RADIUS * 1.2 := by
    have hg : (levelOf sampleNearGoal).goal = ((20 : ℝ), (0 : ℝ)) := rfl
    rw [hpost, hg, vdist_axis_x]
    rw [GOAL_RADIUS]
    norm_num
  have hhit : ∃ b ∈ (levelOf sampleCrash).planets,
      vdist sampleCrash.craftPos b.pos < b.radius + 0.5 := by
    refine ⟨Body.mk (0, -12) 400 2.5, List.mem_singleton.mpr rfl, ?_⟩
    have h0 : sampleCrash.craftPos = ((0 : ℝ), (-12 : ℝ)) := rfl
    rw [h0]
    show vdist _ ((0 : ℝ), (-12 : ℝ)) < _
    rw [vdist_self]
    norm_num
  have hlt : sampleNearGoal.currentLevel < LEVELS.length := by
    show 0 < LEVELS.length
    rw [LEVELS]
    norm_num
  have hacc : accumAccel sampleNearGoal.craftPos 0.5 (levelOf sampleNearGoal).planets 0 =
      some 0 := rfl
  refine ⟨(claim4_priority_single_transition demoAim 0).1 (by intro h; cases h), ?_, ?_⟩
  · exact (claim4_priority_single_transition sampleCrash 0).2.1 rfl hhit
  · exact (claim4_priority_single_transition sampleNearGoal 0).2.2 rfl hlt hacc hgoal

/-- Claim C6: a flying tick without collision whose post-update position is
strictly within `1.2 * GOAL_RADIUS = 3.0` of the goal center sets the phase
to `success` and inserts the current level index into `completedLevels`; the
insertion is a set insertion and the successor state absorbs further ticks,
so the index is added exactly once per completion. -/
theorem claim6_goal_capture (s : AppState) (a : Vec2)
    (hfly : s.gameState = Phase.flying)
    (hlt : s.currentLevel < LEVELS.length)
    (ha : accumAccel s.craftPos 0.5 (levelOf s).planets 0 = some a)
    (hgoal : vdist (postPos s a) (levelOf s).goal < GOAL_RADIUS * 1.2) :
    (flyTick s).gameState = Phase.success ∧
    (flyTick s).completedLevels = insert s.currentLevel s.completedLevels ∧
    flyTick (flyTick s) = flyTick s ∧
    GOAL_RADIUS * 1.2 = 3 := by
  have h := flyTick_success s a hfly ha hgoal (near_goal_in_bounds s hlt _ hgoal)
  have hsucc : (flyTick s).gameState = Phase.success := by rw [h]
  refine ⟨hsucc, by rw [h], ?_, by rw [GOAL_RADIUS]; norm_num⟩
  apply flyTick_not_flying
  rw [hsucc]
  intro hcontra
  cases hcontra

/-- Witness for C6: the goal-reaching tick of level 1. -/
theorem claim6_witness :
    (flyTick sampleNearGoal).gameState = Phase.success ∧
    (flyTick sampleNearGoal).completedLevels = insert 0 (∅ : Finset ℕ) ∧
    flyTick (flyTick sampleNearGoal) = flyTick sampleNearGoal := by
  have hpost : postPos sampleNearGoal 0 = ((19 : ℝ), (0 : ℝ)) := by
    rw [postPos, postVel]
    have h1 : sampleNearGoal.craftVel = ((0 : ℝ), (0 : ℝ)) := rfl
    have h2 : sampleNearGoal.craftPos = ((19 : ℝ), (0 : ℝ)) := rfl
    rw [h1, h2]
    simp [Prod.smul_mk]
  have hgoal : vdist (postPos sampleNearGoal 0) (levelOf sampleNearGoal).goal <
      GOAL_RADIUS * 1.2 := by
    have hg : (levelOf sampleNearGoal).goal = ((20 : ℝ), (0 : ℝ)) := rfl
    rw [hpost, hg, vdist_axis_x, GOAL_RADIUS]
    norm_num
  have hlt : sampleNearGoal.currentLevel < LEVELS.length := by
    show 0 < LEVELS.length
    rw [LEVELS]
    norm_num
  have h := claim6_goal_capture sampleNearGoal 0 rfl hlt rfl hgoal
  exact ⟨h.1, h.2.1, h.2.2.1⟩

/-- Claim C7: pointer-up while aiming with an active drag launches when
`power > 2` — velocity `(cos angle, sin angle) * power * 0.5`, phase
`flying` — and silently cancels when `0 < power <= 2`: the drag ends, the
power resets, and everything else (phase, craft velocity) is untouched. -/
theorem claim7_pointer_up (s : AppState)
    (hd : s.isDragging = true) (ha : s.gameState = Phase.aiming) :
    (2 < s.launchPower →
      onMouseUp s =
        { s with isDragging := false, launchPower := 0,
                 craftVel := (Real.cos s.launchAngle * s.launchPower * 0.5,
                              Real.sin s.launchAngle * s.launchPower * 0.5),
                 gameState := Phase.flying }) ∧
    (0 < s.launchPower → s.launchPower ≤ 2 →
      onMouseUp s = { s with isDragging := false, launchPower := 0 }) := by
  have hcond : ¬ (s.isDragging ≠ true ∨ s.gameState ≠ Phase.aiming) := by
    push_neg
    exact ⟨hd, ha⟩
  constructor
  · intro hpow
    rw [onMouseUp, if_neg hcond]
    simp only [if_pos hpow, LAUNCH_POWER_MULTIPLIER]
  · intro _ hpow
    have hnot : ¬ 2 < s.launchPower := not_lt.mpr hpow
    rw [onMouseUp, if_neg hcond]
    simp only [if_neg hnot]

/-- Witness for C7: a launch at power 3, angle 0 — the craft flies at
velocity `(1.5, 0)` — and a cancelled gesture at power 1.5 on a fresh run —
phase stays aiming and the velocity stays `(0, 0)`. -/
theorem claim7_witness :
    onMouseUp sampleLaunch =
      { sampleLaunch with isDragging := false, launchPower := 0,
                          craftVel := ((1.5 : ℝ), (0 : ℝ)),
                          gameState := Phase.flying } ∧
    onMouseUp sampleCancel = { sampleCancel with isDragging := false, launchPower := 0 } ∧
    (onMouseUp sampleCancel).gameState = Phase.aiming ∧
    (onMouseUp sampleCancel).craftVel = ((0 : ℝ), (0 : ℝ)) := by
  have hp1 : sampleLaunch.launchPower = (3 : ℝ) := rfl
  have hp2 : sampleCancel.launchPower = (1.5 : ℝ) := rfl
  have h1 := (claim7_pointer_up sampleLaunch rfl rfl).1 (by rw [hp1]; norm_num)
  have h2 := (claim7_pointer_up sampleCancel rfl rfl).2
    (by rw [hp2]; norm_num) (by rw [hp2]; norm_num)
  refine ⟨?_, h2, by rw [h2]; rfl, by rw [h2]; rfl⟩
  rw [h1]
  have hv : (Real.cos sampleLaunch.launchAngle * sampleLaunch.launchPower * 0.5,
             Real.sin sampleLaunch.launchAngle * sampleLaunch.launchPower * 0.5) =
      (((1.5 : ℝ), (0 : ℝ)) : Vec2) := by
    have hang : sampleLaunch.launchAngle = 0 := rfl
    have hpow : sampleLaunch.launchPower = 3 := rfl
    rw [hang, hpow, Real.cos_zero, Real.sin_zero]
    norm_num
  rw [hv]

/-- Counterexample to C3: the attempts counter is 1 after entering level 1
via `startGame`, and the retry action raises it to 2 — `retryLevel` reruns
the level effect, whose `initLevel` increments `attempts`.  The claim says a
retry on the same level does not increment the counter. -/
theorem claim3_counterexample :
    (startGame menuStart).attempts = 1 ∧
    (retryLevel (startGame menuStart)).attempts = 2 := ⟨rfl, rfl⟩

/-- Claim C3 amended: the attempts counter increments exactly once per level
entry (`startGame` and `selectLevel` reset it to 0 before the entry
increment, so it reads 1 after the entry) and ALSO exactly once per retry on
the same level, because the retry action reruns the same level
initialization effect. -/
theorem claim3_amended_attempts (s : AppState) (i : ℕ) :
    (s.showLevelSelect = false → (startGame s).attempts = 1) ∧
    (s.showMenu = false → (selectLevel s i).attempts = 1) ∧
    (s.showMenu = false → s.showLevelSelect = false →
      (retryLevel s).attempts = s.attempts + 1) := by
  refine ⟨?_, ?_, ?_⟩
  · intro h
    rw [startGame, effectRun]
    simp [h, initLevel]
  · intro h
    rw [selectLevel, effectRun]
    simp [h, initLevel]
  · intro hm hls
    rw [retryLevel, effectRun, hm, hls]
    simp [initLevel]

/-- Witness for the amended C3. -/
theorem claim3_witness :
    (startGame menuStart).attempts = 1 ∧
    (selectLevel demoAim 2).attempts = 1 ∧
    (retryLevel demoAim).attempts = demoAim.attempts + 1 :=
  ⟨(claim3_amended_attempts menuStart 0).1 rfl,
   (claim3_amended_attempts demoAim 2).2.1 rfl,
   (claim3_amended_attempts demoAim 0).2.2 rfl rfl⟩

/-- Counterexample to C8: drag in level 1 (power 10 at angle 0 after the
pointer moves to `(-30, 0)`), then retry mid-drag.  The reset does rebuild
the run (phase aiming, empty trail) but the release afterwards still
launches — phase `flying` with velocity `(5, 0)` computed from the
pre-reset power and angle, which `initLevel` never clears. -/
theorem claim8_counterexample :
    (retryLevel (onMouseMove (onMouseDown demoAim) ((-30 : ℝ), (0 : ℝ)))).gameState
        = Phase.aiming ∧
    (retryLevel (onMouseMove (onMouseDown demoAim) ((-30 : ℝ), (0 : ℝ)))).trail = [] ∧
    (onMouseUp (retryLevel (onMouseMove (onMouseDown demoAim) ((-30 : ℝ), (0 : ℝ))))).gameState
        = Phase.flying ∧
    (onMouseUp (retryLevel (onMouseMove (onMouseDown demoAim) ((-30 : ℝ), (0 : ℝ))))).craftVel
        = ((5 : ℝ), (0 : ℝ)) := by
  have h1 : onMouseDown demoAim = demoDown := by
    rw [onMouseDown, if_neg]
    · rfl
    · simp [demoAim, menuStart]
  have hc2 : ¬ (demoDown.isDragging ≠ true ∨ demoDown.gameState ≠ Phase.aiming) := by
    simp [demoDown, demoAim, menuStart]
  have e1 : demoDown.craftPos = ((-20 : ℝ), (0 : ℝ)) := rfl
  have hsub : (((-20 : ℝ), (0 : ℝ)) : Vec2) - ((-30 : ℝ), (0 : ℝ)) = ((10 : ℝ), (0 : ℝ)) := by
    rw [Prod.mk_sub_mk]
    norm_num
  have hpow : min (vlen ((((-20 : ℝ), (0 : ℝ)) : Vec2) - ((-30 : ℝ), (0 : ℝ)))) 30 = (10 : ℝ) := by
    rw [hsub, vlen_axis_x, abs_of_nonneg (by norm_num : (0 : ℝ) ≤ 10)]
    exact min_eq_left (by norm_num)
  have hdy : (((-20 : ℝ), (0 : ℝ)) : Vec2).2 - (((-30 : ℝ), (0 : ℝ)) : Vec2).2 = (0 : ℝ) := by
    norm_num
  have hdx : (((-20 : ℝ), (0 : ℝ)) : Vec2).1 - (((-30 : ℝ), (0 : ℝ)) : Vec2).1 = (10 : ℝ) := by
    norm_num
  have hang : atan2 0 10 = 0 := by
    rw [atan2, if_pos (by norm_num : (0 : ℝ) < 10)]
    norm_num [Real.arctan_zero]
  have h2 : onMouseMove demoDown ((-30 : ℝ), (0 : ℝ)) = demoDragged := by
    rw [onMouseMove, if_neg hc2, e1, hdy, hdx, hpow, hang]
    rfl
  have h3 : retryLevel demoDragged = demoDraggedRetried := rfl
  have hc4 : ¬ (demoDraggedRetried.isDragging ≠ true ∨
      demoDraggedRetried.gameState ≠ Phase.aiming) := by
    simp [demoDraggedRetried, demoAim, menuStart]
  have hp4 : demoDraggedRetried.launchPower = (10 : ℝ) := rfl
  have ha4 : demoDraggedRetried.launchAngle = (0 : ℝ) := rfl
  have hv : (Real.cos 0 * (10 : ℝ) * LAUNCH_POWER_MULTIPLIER,
             Real.sin 0 * (10 : ℝ) * LAUNCH_POWER_MULTIPLIER) = (((5 : ℝ), (0 : ℝ)) : Vec2) := by
    rw [Real.cos_zero, Real.sin_zero, LAUNCH_POWER_MULTIPLIER]
    norm_num
  have h4 : onMouseUp demoDraggedRetried = demoStaleLaunch := by
    rw [onMouseUp, if_neg hc4, hp4, ha4]
    simp only [if_pos (show (2 : ℝ) < 10 by norm_num), hv]
    rfl
  rw [h1, h2, h3, h4]
  exact ⟨rfl, rfl, rfl, rfl⟩

/-- Claim C8 amended: retrying or switching levels discards the Run — phase
back to aiming, craft at the level start with zero velocity, empty trail —
but does NOT clear the drag state: `isDragging`, `launchPower` and
`launchAngle` survive the reset, so a release after a mid-drag reset can
still launch using the pre-reset aim. -/
theorem claim8_amended_reset (s : AppState) (i : ℕ)
    (hm : s.showMenu = false) (hls : s.showLevelSelect = false) :
    (retryLevel s).gameState = Phase.aiming ∧
    (retryLevel s).craftVel = ((0 : ℝ), (0 : ℝ)) ∧
    (retryLevel s).trail = [] ∧
    (retryLevel s).craftPos = (LEVELS.getD s.currentLevel emptyLevel).spacecraft ∧
    (retryLevel s).isDragging = s.isDragging ∧
    (retryLevel s).launchPower = s.launchPower ∧
    (retryLevel s).launchAngle = s.launchAngle ∧
    (selectLevel s i).gameState = Phase.aiming ∧
    (selectLevel s i).craftVel = ((0 : ℝ), (0 : ℝ)) ∧
    (selectLevel s i).trail = [] ∧
    (selectLevel s i).craftPos = (LEVELS.getD i emptyLevel).spacecraft ∧
    (selectLevel s i).isDragging = s.isDragging ∧
    (selectLevel s i).launchPower = s.launchPower ∧
    (selectLevel s i).launchAngle = s.launchAngle := by
  have hr : retryLevel s = initLevel s s.currentLevel := by
    rw [retryLevel, effectRun, hm, hls]
    simp
  have hsel : selectLevel s i =
      initLevel { s with showLevelSelect := false, currentLevel := i, attempts := 0 } i := by
    rw [selectLevel, effectRun]
    simp [hm]
  rw [hr, hsel]
  exact ⟨rfl, rfl, rfl, rfl, rfl, rfl, rfl, rfl, rfl, rfl, rfl, rfl, rfl, rfl⟩

/-- Witness for the amended C8. -/
theorem claim8_witness :
    demoAim.showMenu = false ∧
    (retryLevel demoAim).gameState = Phase.aiming ∧
    (retryLevel demoAim).launchPower = demoAim.launchPower ∧
    (selectLevel demoAim 2).isDragging = demoAim.isDragging := by
  have h := claim8_amended_reset demoAim 2 rfl rfl
  exact ⟨rfl, h.1, h.2.2.2.2.2.1, h.2.2.2.2.2.2.2.2.2.2.2.1⟩

/-- The predictor never returns more positions than it was given steps. -/
theorem predict_length_le (planets : List Body) (goal : Vec2) :
    ∀ (n : ℕ) (pos vel : Vec2), (predictTrajectory planets goal pos vel n).length ≤ n := by
  intro n
  induction n with
  | zero =>
    intro pos vel
    rw [predictTrajectory]
    simp
  | succ n ih =>
    intro pos vel
    rw [predictTrajectory]
    cases hacc : accumAccel pos 0 planets 0 with
    | none => simp
    | some a =>
      by_cases hg : vdist pos goal < GOAL_RADIUS * 1.5
      · simp only [if_pos hg]
        simp
      · simp only [if_neg hg, List.length_cons]
        have hif : ∀ (c : Prop) (inst : Decidable c) (l : List Vec2),
            l.length ≤ n → (ite c ([] : List Vec2) l).length ≤ n := by
          intro c inst l hl
          by_cases hc : c
          · rw [if_pos hc]; simp
          · rw [if_neg hc]; exact hl
        exact Nat.succ_le_succ (hif _ _ _ (ih _ _))

/-- Claim C5: the predictor runs with fixed timestep `0.016 * 3 = 0.048` for
at most the given number of steps (100 at the call site), returning at most
that many positions; per step, it stops with nothing appended if some body
is strictly closer than its radius, stops if the point is strictly within
`1.5 * GOAL_RADIUS = 3.75` of the goal, and otherwise integrates
`vel += a * dt; pos += vel * dt`, appends the new position, and stops
afterwards when `|x| > 60` or `|y| > 50`. -/
theorem claim5_predictor (planets : List Body) (goal pos vel : Vec2) (n : ℕ) (a : Vec2) :
    (updateTrajectoryLinePoints planets goal pos vel).length ≤ 100 ∧
    (predictTrajectory planets goal pos vel n).length ≤ n ∧
    ((0.016 * 3 : ℝ) = 0.048 ∧ GOAL_RADIUS * 1.5 = 3.75) ∧
    ((∃ b ∈ planets, vdist pos b.pos < b.radius) →
      predictTrajectory planets goal pos vel (n + 1) = []) ∧
    ((∀ b ∈ planets, ¬ vdist pos b.pos < b.radius) → vdist pos goal < 3.75 →
      predictTrajectory planets goal pos vel (n + 1) = []) ∧
    (accumAccel pos 0 planets 0 = some a → ¬ vdist pos goal < 3.75 →
      predictTrajectory planets goal pos vel (n + 1) =
        (pos + (0.048 : ℝ) • (vel + (0.048 : ℝ) • a)) ::
          (if 60 < |(pos + (0.048 : ℝ) • (vel + (0.048 : ℝ) • a)).1| ∨
              50 < |(pos + (0.048 : ℝ) • (vel + (0.048 : ℝ) • a)).2| then []
           else predictTrajectory planets goal
                  (pos + (0.048 : ℝ) • (vel + (0.048 : ℝ) • a))
                  (vel + (0.048 : ℝ) • a) n)) := by
  have h48 : (0.016 * 3 : ℝ) = 0.048 := by norm_num
  have hgr : GOAL_RADIUS * 1.5 = 3.75 := by rw [GOAL_RADIUS]; norm_num
  refine ⟨predict_length_le planets goal 100 pos vel, predict_length_le planets goal n pos vel,
    ⟨h48, hgr⟩, ?_, ?_, ?_⟩
  · intro hhit
    have hnone : accumAccel pos 0 planets 0 = none := by
      rw [accumAccel_eq_none_iff]
      obtain ⟨b, hb, hlt⟩ := hhit
      exact ⟨b, hb, by rw [add_zero]; simpa [vdist] using hlt⟩
    rw [predictTrajectory, hnone]
  · intro hmiss hnear
    cases hacc : accumAccel pos 0 planets 0 with
    | none =>
      exfalso
      rw [accumAccel_eq_none_iff] at hacc
      obtain ⟨b, hb, hlt⟩ := hacc
      exact hmiss b hb (by rw [add_zero] at hlt; simpa [vdist] using hlt)
    | some y =>
      rw [predictTrajectory, hacc]
      simp only [if_pos (hgr ▸ hnear)]
  · intro hacc hnear
    rw [predictTrajectory, hacc, h48]
    simp only [if_neg (hgr ▸ hnear)]

/-- Witness for C5: a colliding start point stops the predictor at once; an
empty body list with a distant goal yields one integrated position. -/
theorem claim5_witness :
    (∃ b ∈ [Body.mk (0, 0) 400 2.5], vdist ((0 : ℝ), (0 : ℝ)) b.pos < b.radius) ∧
    predictTrajectory [Body.mk (0, 0) 400 2.5] ((100 : ℝ), (0 : ℝ)) (0, 0) (0, 0) 1 = [] ∧
    ¬ vdist ((0 : ℝ), (0 : ℝ)) ((100 : ℝ), (0 : ℝ)) < 3.75 ∧
    predictTrajectory [] ((100 : ℝ), (0 : ℝ)) (0, 0) (0, 0) 1 = [((0 : ℝ), (0 : ℝ))] := by
  have hex : ∃ b ∈ [Body.mk (0, 0) 400 2.5], vdist ((0 : ℝ), (0 : ℝ)) b.pos < b.radius := by
    refine ⟨Body.mk (0, 0) 400 2.5, List.mem_singleton.mpr rfl, ?_⟩
    show vdist ((0 : ℝ), (0 : ℝ)) ((0 : ℝ), (0 : ℝ)) < (2.5 : ℝ)
    rw [vdist_self]
    norm_num
  have hnear : ¬ vdist ((0 : ℝ), (0 : ℝ)) ((100 : ℝ), (0 : ℝ)) < 3.75 := by
    rw [vdist_axis_x]
    norm_num
  have h1 := (claim5_predictor [Body.mk (0, 0) 400 2.5] ((100 : ℝ), (0 : ℝ))
    (0, 0) (0, 0) 0 0).2.2.2.1 hex
  have h2 := (claim5_predictor [] ((100 : ℝ), (0 : ℝ)) (0, 0) (0, 0) 0 0).2.2.2.2.2 rfl hnear
  refine ⟨hex, h1, hnear, ?_⟩
  rw [h2]
  have hz : ((0 : ℝ), (0 : ℝ)) + (0.048 : ℝ) • (((0 : ℝ), (0 : ℝ)) + (0.048 : ℝ) • (0 : Vec2))
      = (((0 : ℝ), (0 : ℝ)) : Vec2) := by
    have h0 : (((0 : ℝ), (0 : ℝ)) : Vec2) = (0 : Vec2) := rfl
    rw [h0, smul_zero, add_zero, smul_zero, add_zero]
  rw [hz]
  have hb : ¬ ((60 : ℝ) < |(((0 : ℝ), (0 : ℝ)) : Vec2).1| ∨
      (50 : ℝ) < |(((0 : ℝ), (0 : ℝ)) : Vec2).2|) := by
    push_neg
    norm_num
  rw [if_neg hb]
  rw [predictTrajectory]

/-- Pushing positions one at a time starting from the empty trail always
leaves exactly the most recent (at most 100) positions, in order. -/
theorem foldl_pushTrail_eq_drop (ps : List Vec2) :
    List.foldl pushTrail [] ps = ps.drop (ps.length - 100) := by
  induction ps using List.reverseRecOn with
  | nil => simp
  | append_singleton ps p ih =>
    rw [List.foldl_append, List.foldl_cons, List.foldl_nil, ih]
    simp only [pushTrail, MAX_TRAIL_LENGTH]
    by_cases h : ps.length < 100
    · have h0 : ps.length - 100 = 0 := by omega
      rw [h0, List.drop_zero]
      have hcond : ¬ (100 < (ps ++ [p]).length) := by
        rw [List.length_append, List.length_singleton]
        omega
      rw [if_neg hcond]
      have h1 : (ps ++ [p]).length - 100 = 0 := by
        rw [List.length_append, List.length_singleton]
        omega
      rw [h1, List.drop_zero]
    · push_neg at h
      have hlen : (ps.drop (ps.length - 100)).length = 100 := by
        rw [List.length_drop]
        omega
      have hcond : 100 < (ps.drop (ps.length - 100) ++ [p]).length := by
        rw [List.length_append, List.length_singleton, hlen]
        omega
      rw [if_pos hcond]
      have hne : ps.drop (ps.length - 100) ≠ [] := by
        intro hnil
        rw [hnil] at hlen
        simp at hlen
      have htail : ∀ (l : List Vec2) (x : Vec2), l ≠ [] → (l ++ [x]).tail = l.tail ++ [x] := by
        intro l x hl
        cases l with
        | nil => exact absurd rfl hl
        | cons c l => rfl
      rw [htail _ _ hne, List.tail_drop]
      have hk2 : (ps ++ [p]).length - 100 ≤ ps.length := by
        rw [List.length_append, List.length_singleton]
        omega
      rw [List.drop_append_of_le_length hk2]
      have hk3 : (ps ++ [p]).length - 100 = ps.length - 100 + 1 := by
        rw [List.length_append, List.length_singleton]
        omega
      rw [hk3]

/-- Claim C9: the trail is a FIFO-bounded history — starting empty, after any
sequence of pushes it holds exactly the most recent at-most-100 positions in
chronological order; its length never exceeds 100, reaches exactly 100 after
at least 100 pushes, a push at capacity evicts the oldest entry first, and
each non-crashing flying tick performs exactly such a push of the new craft
position. -/
theorem claim9_trail_fifo :
    (∀ ps : List Vec2, List.foldl pushTrail [] ps = ps.drop (ps.length - 100)) ∧
    (∀ ps : List Vec2, 100 ≤ ps.length → (List.foldl pushTrail [] ps).length = 100) ∧
    (∀ (t : List Vec2) (p : Vec2), t.length ≤ 100 → (pushTrail t p).length ≤ 100) ∧
    (∀ (t : List Vec2) (p : Vec2), t.length = 100 → pushTrail t p = t.tail ++ [p]) ∧
    (∀ (s : AppState) (a : Vec2), s.gameState = Phase.flying →
      accumAccel s.craftPos 0.5 (levelOf s).planets 0 = some a →
      (flyTick s).trail = pushTrail s.trail (postPos s a)) := by
  refine ⟨foldl_pushTrail_eq_drop, ?_, ?_, ?_, ?_⟩
  · intro ps hps
    rw [foldl_pushTrail_eq_drop, List.length_drop]
    omega
  · intro t p ht
    simp only [pushTrail, MAX_TRAIL_LENGTH]
    by_cases h : 100 < (t ++ [p]).length
    · rw [if_pos h, List.length_tail, List.length_append, List.length_singleton]
      omega
    · rw [if_neg h]
      push_neg at h
      exact h
  · intro t p ht
    simp only [pushTrail, MAX_TRAIL_LENGTH]
    have hcond : 100 < (t ++ [p]).length := by
      rw [List.length_append, List.length_singleton, ht]
      omega
    rw [if_pos hcond]
    have hne : t ≠ [] := by
      intro h
      rw [h] at ht
      simp at ht
    cases t with
    | nil => exact absurd rfl hne
    | cons c l => rfl
  · intro s a hfly ha
    rw [flyTick, if_pos hfly, ha]
    by_cases hg : vdist (postPos s a) (levelOf s).goal < GOAL_RADIUS * 1.2
    · simp only [if_pos hg]
      by_cases hb : 55 < |(postPos s a).1| ∨ 45 < |(postPos s a).2|
      · simp only [if_pos hb]
      · simp only [if_neg hb]
    · simp only [if_neg hg]
      by_cases hb : 55 < |(postPos s a).1| ∨ 45 < |(postPos s a).2|
      · simp only [if_pos hb]
      · simp only [if_neg hb]

/-- Witness for C9. -/
theorem claim9_witness :
    List.foldl pushTrail [] [(((0 : ℝ), (0 : ℝ)) : Vec2)] = [((0 : ℝ), (0 : ℝ))] ∧
    (List.foldl pushTrail [] (List.replicate 101 (((0 : ℝ), (0 : ℝ)) : Vec2))).length = 100 ∧
    (pushTrail [] (((0 : ℝ), (0 : ℝ)) : Vec2)).length ≤ 100 ∧
    pushTrail (List.replicate 100 (((0 : ℝ), (0 : ℝ)) : Vec2)) ((1 : ℝ), (0 : ℝ)) =
      (List.replicate 100 (((0 : ℝ), (0 : ℝ)) : Vec2)).tail ++ [((1 : ℝ), (0 : ℝ))] ∧
    (flyTick sampleNearGoal).trail = pushTrail sampleNearGoal.trail (postPos sampleNearGoal 0) := by
  have h := claim9_trail_fifo
  refine ⟨?_, ?_, ?_, ?_, ?_⟩
  · have h1 := h.1 [(((0 : ℝ), (0 : ℝ)) : Vec2)]
    simpa using h1
  · exact h.2.1 _ (by simp)
  · exact h.2.2.1 [] _ (by simp)
  · exact h.2.2.2.1 _ _ (by simp)
  · exact h.2.2.2.2 sampleNearGoal 0 rfl rfl

/-- No branch of a flying tick removes anything from `completedLevels`. -/
theorem completed_subset_flyTick (s : AppState) :
    s.completedLevels ⊆ (flyTick s).completedLevels := by
  rw [flyTick]
  by_cases hf : s.gameState = Phase.flying
  · rw [if_pos hf]
    cases ha : accumAccel s.craftPos 0.5 (levelOf s).planets 0 with
    | none => exact Finset.Subset.refl _
    | some a =>
      by_cases hg : vdist (postPos s a) (levelOf s).goal < GOAL_RADIUS * 1.2
      · simp only [if_pos hg]
        by_cases hb : 55 < |(postPos s a).1| ∨ 45 < |(postPos s a).2|
        · simp only [if_pos hb]
          exact Finset.subset_insert _ _
        · simp only [if_neg hb]
          exact Finset.subset_insert _ _
      · simp only [if_neg hg]
        by_cases hb : 55 < |(postPos s a).1| ∨ 45 < |(postPos s a).2|
        · simp only [if_pos hb]
          exact Finset.Subset.refl _
        · simp only [if_neg hb]
          exact Finset.Subset.refl _
  · rw [if_neg hf]

/-- Claim C10: `completedLevels` is monotone — no operation of the component
(pointer events, ticks, retry, level selection, next level, menus,
startGame) ever removes an index, over single steps and over arbitrary
operation sequences. -/
theorem claim10_completed_monotone :
    (∀ (op : Op) (s : AppState), s.completedLevels ⊆ (step op s).completedLevels) ∧
    (∀ (ops : List Op) (s : AppState),
      s.completedLevels ⊆ (ops.foldl (fun st o => step o st) s).completedLevels) := by
  have hone : ∀ (op : Op) (s : AppState), s.completedLevels ⊆ (step op s).completedLevels := by
    intro op s
    cases op with
    | down =>
      rw [step, onMouseDown]
      split <;> exact Finset.Subset.refl _
    | up =>
      rw [step, onMouseUp]
      split
      · exact Finset.Subset.refl _
      · split <;> exact Finset.Subset.refl _
    | move w =>
      rw [step, onMouseMove]
      split <;> exact Finset.Subset.refl _
    | tick => exact completed_subset_flyTick s
    | retry =>
      rw [step, retryLevel, effectRun]
      split <;> exact Finset.Subset.refl _
    | selectLv i =>
      rw [step, selectLevel, effectRun]
      split <;> exact Finset.Subset.refl _
    | start =>
      rw [step, startGame, effectRun]
      split <;> exact Finset.Subset.refl _
    | next =>
      rw [step, nextLevel]
      split <;> (rw [effectRun]; split <;> exact Finset.Subset.refl _)
    | menu =>
      rw [step, goToMenu, effectRun]
      split <;> exact Finset.Subset.refl _
    | levelSelect =>
      rw [step, openLevelSelect, effectRun]
      split <;> exact Finset.Subset.refl _
  refine ⟨hone, ?_⟩
  intro ops
  induction ops with
  | nil => intro s; exact Finset.Subset.refl _
  | cons op rest ih =>
    intro s
    rw [List.foldl_cons]
    exact (hone op s).trans (ih (step op s))

end OrbitalEscape
